import Mathlib

/-!
Verification of the `netw` connection engine (`src/netw/connection.go`) of the
`game` websocket framework, together with a spec-modelled Packet Codec.

Modelling conventions:
* `time.Time` is modelled as a `Nat` of nanoseconds; `time.Now()` becomes an
  explicit `now : Nat` argument threaded into each operation that reads the clock.
* Byte slices (`[]byte`) are `List Nat` (each entry a byte value).
* The buffered channel `msgChan` is a FIFO `List (List Nat)` (head = oldest)
  plus its capacity `msgChanCap` recorded at construction.
* `context.Context` / `cancel` is a Boolean `cancelled` token.
* The side effects of `Stop` on external collaborators (the `CallOnConnStop`
  hook, `cancel()`, `Conn.Close()`, `close(msgChan)`, registry `Remove`) are
  counted in an explicit `StopEffects` record threaded through the call.
* Fallible Go functions returning `error` become `Except String _`.
-/

deriving instance DecidableEq for Except

/-- One decoded message unit: `msgID`, payload length, payload bytes
(the `Message` of the spec data model, built by `NewMsgPackage`). -/
structure Message where
  id : Nat
  dataLen : Nat
  data : List Nat
deriving DecidableEq

/-- The `Connection` struct of `src/netw/connection.go`.  The websocket handle
`Conn` is modelled by the Boolean `connClosed` (whether `Conn.Close()` ran);
`ctx`/`cancel` by `cancelled`; `close(msgChan)` by `chanClosed`. -/
structure Connection where
  ConnID : Int
  HeartbeatTime : Nat
  msgChan : List (List Nat)
  msgChanCap : Nat
  isClosed : Bool
  cancelled : Bool
  connClosed : Bool
  chanClosed : Bool
deriving DecidableEq

/-- Occurrence counts of the teardown side effects performed by
`Connection.Stop`: on-disconnect hook calls (`global.Server.CallOnConnStop`),
`cancel()` calls, transport closes (`c.Conn.Close()`), outbound-queue closes
(`close(c.msgChan)`), and registry removals (`GetConnMgr().Remove`). -/
structure StopEffects where
  hookCalls : Nat
  cancelCalls : Nat
  transportCloses : Nat
  chanCloses : Nat
  registryRemoves : Nat
deriving DecidableEq

/-- The empty effect log. -/
def StopEffects.zero : StopEffects := ⟨0, 0, 0, 0, 0⟩

/-- `NewConnection` (`connection.go` lines 39-50): fresh open connection, heartbeat
stamped with the construction time, empty outbound channel of capacity
`global.Config.MaxMsgChanLen` (passed here as `maxMsgChanLen`). -/
def NewConnection (connID : Int) (now : Nat) (maxMsgChanLen : Nat) : Connection :=
  { ConnID := connID
    HeartbeatTime := now
    msgChan := []
    msgChanCap := maxMsgChanLen
    isClosed := false
    cancelled := false
    connClosed := false
    chanClosed := false }

/-- `Connection.Stop` (`connection.go` lines 122-143).  Source order is kept
faithfully: `CallOnConnStop` is invoked first, then the `isClosed` early
return, then cancel / transport close / channel close / `isClosed = true` /
registry removal. -/
def Connection.Stop (c : Connection) (eff : StopEffects) : Connection × StopEffects :=
  let eff1 : StopEffects := { eff with hookCalls := eff.hookCalls + 1 }
  if c.isClosed then (c, eff1)
  else
    ({ c with cancelled := true, connClosed := true, chanClosed := true, isClosed := true },
      { eff1 with
        cancelCalls := eff1.cancelCalls + 1
        transportCloses := eff1.transportCloses + 1
        chanCloses := eff1.chanCloses + 1
        registryRemoves := eff1.registryRemoves + 1 })

/-- `Connection.SendMsg` (`connection.go` lines 166-182).  The Go code packs via
`global.Server.Packet().Pack(NewMsgPackage(msgID, data))`; since the codec is
injected server-side, it is a function argument `pack` here (`data` has Go type
`interface\x7b\x7d`, hence the type parameter `α`).  Source order: closed check
first, then pack, then the channel send `c.msgChan <- msg`. -/
def Connection.SendMsg {α : Type} (pack : Nat → α → Except String (List Nat))
    (c : Connection) (msgID : Nat) (data : α) : Except String Connection :=
  if c.isClosed then Except.error "connection closed when send msg"
  else
    match pack msgID data with
    | Except.error _ => Except.error "pack error msg "
    | Except.ok msg => Except.ok { c with msgChan := c.msgChan ++ [msg] }

/-- The state reached after `SendMsg`: the updated connection on success, the
unchanged connection when `SendMsg` returned an error. -/
def Connection.sendMsgState {α : Type} (pack : Nat → α → Except String (List Nat))
    (c : Connection) (msgID : Nat) (data : α) : Connection :=
  match c.SendMsg pack msgID data with
  | Except.ok c' => c'
  | Except.error _ => c

/-- `Connection.SetPingTime` (`connection.go` lines 185-189): stamp the heartbeat
with the current time. -/
def Connection.SetPingTime (c : Connection) (now : Nat) : Connection :=
  { c with HeartbeatTime := now }

/-- The 30-second window `time.Second * 30` of `IsHeartbeatTimeout`, in
nanoseconds. -/
def heartbeatWindow : Nat := 30 * 1000000000

/-- `Connection.IsHeartbeatTimeout` (`connection.go` lines 194-201), verbatim from
the source: `timeout` is set to `true` exactly when
`time.Now().Before(c.HeartbeatTime.Add(time.Second * 30))`, i.e. when
`now < HeartbeatTime + heartbeatWindow`.  It reads state under `RLock` and
writes nothing. -/
def Connection.IsHeartbeatTimeout (c : Connection) (now : Nat) : Bool :=
  now < c.HeartbeatTime + heartbeatWindow

/-- `Connection.GetConnID` (`connection.go`). -/
def Connection.GetConnID (c : Connection) : Int := c.ConnID

/-- The `Request` struct of the `netw` package: an ephemeral pairing of a
`Message` with the `Connection` it arrived on. -/
structure Request where
  conn : Connection
  msg : Message
deriving DecidableEq

/-- Outcome of one iteration of the `StartReader` loop (`connection.go` lines
72-108): exit on `ctx.Done()`; jump to `Wrr: c.Stop()` on read error or unpack
error; otherwise dispatch the built `Request` either to the worker pool
(`SendMsgToTaskQueue`) or to a fresh goroutine running `DoMsgHandler`. -/
inductive ReaderAction where
  | exit
  | stoppedReadErr
  | stoppedUnpackErr (e : String)
  | dispatchPool (r : Request)
  | dispatchDirect (r : Request)
deriving DecidableEq

/-- One iteration of `Connection.StartReader` (`connection.go` lines 72-108).
`ctxDone` models the `c.ctx.Done()` select branch; `readResult` models
`c.Conn.ReadMessage()` (`none` = read error); `unpack` models
`global.Server.Packet().Unpack`; `workerPoolSize` is
`global.Config.WorkerPoolSize`.  On either error path the loop jumps to the
`Wrr` label, which runs `c.Stop()` (effects logged into `eff`).  On success the
request is built, `c.SetPingTime()` runs, and dispatch mode is chosen by
`workerPoolSize > 0`. -/
def Connection.startReaderStep (unpack : List Nat → Except String Message)
    (workerPoolSize : Nat) (now : Nat) (c : Connection) (ctxDone : Bool)
    (readResult : Option (List Nat)) (eff : StopEffects) :
    Connection × StopEffects × ReaderAction :=
  if ctxDone then (c, eff, ReaderAction.exit)
  else
    match readResult with
    | none =>
        let r := c.Stop eff
        (r.1, r.2, ReaderAction.stoppedReadErr)
    | some msgData =>
        match unpack msgData with
        | Except.error e =>
            let r := c.Stop eff
            (r.1, r.2, ReaderAction.stoppedUnpackErr e)
        | Except.ok msg =>
            let c' := c.SetPingTime now
            let req : Request := ⟨c', msg⟩
            if workerPoolSize > 0 then (c', eff, ReaderAction.dispatchPool req)
            else (c', eff, ReaderAction.dispatchDirect req)

/-- One iteration of `Connection.StartWriter` (`connection.go` lines 53-69):
take the oldest frame off `msgChan` and hand it to `Conn.WriteMessage`
(returned as the second component); with an empty channel nothing is taken
(the goroutine is blocked in `select` or exits on `ctx.Done()`). -/
def Connection.startWriterStep (c : Connection) : Connection × Option (List Nat) :=
  match c.msgChan with
  | [] => (c, none)
  | d :: rest => ({ c with msgChan := rest }, some d)

/-- `Connection.Start` (`connection.go` lines 111-119): installs a fresh
`context.WithCancel` token (both pump goroutines are spawned, and the
on-connect hook fires; neither mutates the connection state). -/
def Connection.Start (c : Connection) : Connection :=
  { c with cancelled := false }

/-- The operations of a `Connection`, for stating lifetime invariants.  Getters
(`GetConnID`, `GetConnection`, `Context`, `RemoteAddr`) and the read-only query
`IsHeartbeatTimeout` are included as state-preserving operations. -/
inductive Op (α : Type) where
  | start
  | readerStep (ctxDone : Bool) (readResult : Option (List Nat))
  | writerStep
  | sendMsg (msgID : Nat) (data : α)
  | setPingTime
  | stop
  | isHeartbeatTimeout
  | getConnID
  | getConnection
  | contextGetter
  | remoteAddr

/-- The state transformer of each `Connection` operation.  `now` is the clock
value observed by the operation (`time.Now()`). -/
def applyOp {α : Type} (pack : Nat → α → Except String (List Nat))
    (unpack : List Nat → Except String Message) (workerPoolSize : Nat)
    (now : Nat) : Op α → Connection → Connection
  | Op.start, c => c.Start
  | Op.readerStep ctxDone readResult, c =>
      (c.startReaderStep unpack workerPoolSize now ctxDone readResult StopEffects.zero).1
  | Op.writerStep, c => c.startWriterStep.1
  | Op.sendMsg msgID data, c => c.sendMsgState pack msgID data
  | Op.setPingTime, c => c.SetPingTime now
  | Op.stop, c => (c.Stop StopEffects.zero).1
  | Op.isHeartbeatTimeout, c => c
  | Op.getConnID, c => c
  | Op.getConnection, c => c
  | Op.contextGetter, c => c
  | Op.remoteAddr, c => c

/-- A trace of operations, each tagged with the clock value it observes. -/
def applyOps {α : Type} (pack : Nat → α → Except String (List Nat))
    (unpack : List Nat → Except String Message) (workerPoolSize : Nat) :
    List (Nat × Op α) → Connection → Connection
  | [], c => c
  | (now, op) :: rest, c =>
      applyOps pack unpack workerPoolSize rest (applyOp pack unpack workerPoolSize now op c)

/-- Little-endian encoding of a 32-bit unsigned value into four bytes
(values above `2^32` are truncated, as a fixed-width field is). -/
def u32le (n : Nat) : List Nat :=
  [n % 256, n / 2 ^ 8 % 256, n / 2 ^ 16 % 256, n / 2 ^ 24 % 256]

/-- Little-endian read of a 32-bit unsigned value from the first four bytes. -/
def readU32le : List Nat → Nat
  | b0 :: b1 :: b2 :: b3 :: _ => b0 + b1 * 2 ^ 8 + b2 * 2 ^ 16 + b3 * 2 ^ 24
  | _ => 0

/-- Modelled from the spec: the Packet Codec `Pack` is not under `src/` (the
source only reaches it through `global.Server.Packet()` and
`pack.NewDataPack()`).  Per spec section 4.2, `Pack` produces a fixed-width
payload-length field, then a fixed-width message-identifier field, then the raw
payload, and fails if the payload length exceeds the configured maximum
(`maxPayloadLength`, passed here as `maxLen`).  Both numeric fields are 32-bit
little-endian, the consistent byte order also used by `Unpack`. -/
def Pack (maxLen : Nat) (msgID : Nat) (payload : List Nat) : Except String (List Nat) :=
  if payload.length > maxLen then Except.error "too large msg data received"
  else Except.ok (u32le payload.length ++ u32le msgID ++ payload)

/-- Modelled from the spec: the Packet Codec `Unpack` is not under `src/`.  Per
spec section 4.2, it reads the length and identifier fields first, fails with a
distinct error if the header is truncated, validates the declared length
against the configured maximum before any payload extraction, fails if fewer
payload bytes are available than declared, and otherwise extracts the
payload. -/
def Unpack (maxLen : Nat) (frame : List Nat) : Except String Message :=
  match frame with
  | b0 :: b1 :: b2 :: b3 :: b4 :: b5 :: b6 :: b7 :: rest =>
      let len := readU32le [b0, b1, b2, b3]
      let id := readU32le [b4, b5, b6, b7]
      if len > maxLen then Except.error "too large msg data received"
      else if rest.length < len then Except.error "not enough msg data received"
      else Except.ok ⟨id, len, rest.take len⟩
  | _ => Except.error "truncated header"

/-! ## Theorems -/

/-- Auxiliary: a 32-bit little-endian field prepended to further bytes reads
back as the encoded value reduced modulo `2 ^ 32`. -/
theorem readU32le_u32le_append (n : Nat) (rest : List Nat) :
    readU32le (u32le n ++ rest) = n % 2 ^ 32 := by
  simp [u32le, readU32le]
  omega

/-- C4: for every `msgID` (a 32-bit identifier) and every payload of length at
most `maxPayloadLength` (itself a 32-bit quantity, being a 4-byte wire field),
decoding the frame produced by encoding returns the original pair:
`Unpack (Pack msgID payload) = (msgID, payload)`. -/
theorem unpack_pack_roundtrip (maxLen msgID : Nat) (payload : List Nat)
    (hid : msgID < 2 ^ 32) (hlen : payload.length ≤ maxLen) (hmax : maxLen < 2 ^ 32) :
    (Pack maxLen msgID payload).bind (fun f => Unpack maxLen f) =
      Except.ok ⟨msgID, payload.length, payload⟩ := by
  have h32 : payload.length < 2 ^ 32 := lt_of_le_of_lt hlen hmax
  rw [Pack, if_neg (by omega)]
  show Unpack maxLen (u32le payload.length ++ u32le msgID ++ payload) = _
  simp only [u32le, List.cons_append, List.nil_append, Unpack, readU32le]
  rw [show payload.length % 256 + payload.length / 2 ^ 8 % 256 * 2 ^ 8 +
        payload.length / 2 ^ 16 % 256 * 2 ^ 16 + payload.length / 2 ^ 24 % 256 * 2 ^ 24 =
        payload.length from by omega,
      show msgID % 256 + msgID / 2 ^ 8 % 256 * 2 ^ 8 +
        msgID / 2 ^ 16 % 256 * 2 ^ 16 + msgID / 2 ^ 24 % 256 * 2 ^ 24 = msgID from by omega,
      if_neg (by omega), if_neg (by omega)]
  simp [List.take_length]

/-- Witness for C4 at a concrete input. -/
theorem unpack_pack_roundtrip_witness :
    7 < 2 ^ 32 ∧ ([1, 2, 3] : List Nat).length ≤ 100 ∧ 100 < 2 ^ 32 ∧
    (Pack 100 7 [1, 2, 3]).bind (fun f => Unpack 100 f) = Except.ok ⟨7, 3, [1, 2, 3]⟩ :=
  ⟨by norm_num, by decide, by norm_num,
    unpack_pack_roundtrip 100 7 [1, 2, 3] (by norm_num) (by decide) (by norm_num)⟩

/-- C3: on a connection whose `isClosed` flag is `true`, every `SendMsg` call
returns the "connection closed" error and performs no further action: the state
(in particular the outbound queue `msgChan`) is unchanged and no send
succeeds. -/
theorem sendMsg_on_closed {α : Type} (pack : Nat → α → Except String (List Nat))
    (c : Connection) (msgID : Nat) (data : α) (h : c.isClosed = true) :
    c.SendMsg pack msgID data = Except.error "connection closed when send msg" ∧
    c.sendMsgState pack msgID data = c := by
  constructor
  · simp [Connection.SendMsg, h]
  · simp [Connection.sendMsgState, Connection.SendMsg, h]

/-- Witness for C3 on a concrete stopped connection. -/
theorem sendMsg_on_closed_witness :
    ((NewConnection 1 0 4).Stop StopEffects.zero).1.isClosed = true ∧
    (((NewConnection 1 0 4).Stop StopEffects.zero).1.SendMsg (Pack 100) 7 [1] =
        Except.error "connection closed when send msg" ∧
      ((NewConnection 1 0 4).Stop StopEffects.zero).1.sendMsgState (Pack 100) 7 [1] =
        ((NewConnection 1 0 4).Stop StopEffects.zero).1) :=
  ⟨by decide, sendMsg_on_closed (Pack 100) _ 7 [1] (by decide)⟩

/-- C5: on an open connection, when `Pack` fails inside `SendMsg` the call
returns the "pack error msg " error, nothing is enqueued on `msgChan` (the
state is unchanged), and the connection remains open: `isClosed` stays `false`
(so `Stop` is not triggered by this path). -/
theorem sendMsg_pack_error {α : Type} (pack : Nat → α → Except String (List Nat))
    (c : Connection) (msgID : Nat) (data : α) (err : String)
    (hopen : c.isClosed = false) (hpack : pack msgID data = Except.error err) :
    c.SendMsg pack msgID data = Except.error "pack error msg " ∧
    c.sendMsgState pack msgID data = c ∧
    (c.sendMsgState pack msgID data).isClosed = false := by
  refine ⟨?_, ?_, ?_⟩ <;>
    simp [Connection.SendMsg, Connection.sendMsgState, hopen, hpack]

/-- Witness for C5: a fresh connection and an oversized payload rejected by the
codec (`Pack` with bound 0). -/
theorem sendMsg_pack_error_witness :
    (NewConnection 1 0 4).isClosed = false ∧
    Pack 0 7 [1] = Except.error "too large msg data received" ∧
    ((NewConnection 1 0 4).SendMsg (Pack 0) 7 [1] = Except.error "pack error msg " ∧
      (NewConnection 1 0 4).sendMsgState (Pack 0) 7 [1] = NewConnection 1 0 4 ∧
      ((NewConnection 1 0 4).sendMsgState (Pack 0) 7 [1]).isClosed = false) :=
  ⟨by decide, by decide,
    sendMsg_pack_error (Pack 0) (NewConnection 1 0 4) 7 [1]
      "too large msg data received" (by decide) (by decide)⟩

/-- C6: when the inbound task's `Unpack` of a received raw frame fails, the
iteration jumps to the `Wrr` label and runs `Stop()`: the returned action is
`stoppedUnpackErr` (never a dispatch, so no `Request` is built for the
malformed frame and it is not retried), and the resulting connection is
closed. -/
theorem reader_unpack_error_stops (unpack : List Nat → Except String Message)
    (workerPoolSize now : Nat) (c : Connection) (raw : List Nat) (e : String)
    (eff : StopEffects) (hunp : unpack raw = Except.error e) :
    c.startReaderStep unpack workerPoolSize now false (some raw) eff =
      ((c.Stop eff).1, (c.Stop eff).2, ReaderAction.stoppedUnpackErr e) ∧
    (c.Stop eff).1.isClosed = true := by
  constructor
  · simp [Connection.startReaderStep, hunp]
  · by_cases hc : c.isClosed <;> simp [Connection.Stop, hc]

/-- Witness for C6: a truncated frame rejected by the spec-modelled `Unpack`. -/
theorem reader_unpack_error_stops_witness :
    Unpack 100 [1, 2] = Except.error "truncated header" ∧
    ((NewConnection 1 0 4).startReaderStep (Unpack 100) 0 9 false (some [1, 2])
        StopEffects.zero =
      (((NewConnection 1 0 4).Stop StopEffects.zero).1,
        ((NewConnection 1 0 4).Stop StopEffects.zero).2,
        ReaderAction.stoppedUnpackErr "truncated header") ∧
      ((NewConnection 1 0 4).Stop StopEffects.zero).1.isClosed = true) :=
  ⟨by decide,
    reader_unpack_error_stops (Unpack 100) 0 9 (NewConnection 1 0 4) [1, 2]
      "truncated header" StopEffects.zero (by decide)⟩

/-- C7: for every successfully decoded inbound message, the reader iteration
updates the heartbeat (`SetPingTime` stamps `now`), builds a `Request` pairing
the message with its connection, and dispatches it to the worker pool exactly
when `workerPoolSize > 0`, and directly (a fresh goroutine running
`DoMsgHandler`) exactly when `workerPoolSize = 0`. -/
theorem reader_dispatch_mode (unpack : List Nat → Except String Message)
    (workerPoolSize now : Nat) (c : Connection) (raw : List Nat) (msg : Message)
    (eff : StopEffects) (hunp : unpack raw = Except.ok msg) :
    c.startReaderStep unpack workerPoolSize now false (some raw) eff =
      (c.SetPingTime now, eff,
        if workerPoolSize > 0 then ReaderAction.dispatchPool ⟨c.SetPingTime now, msg⟩
        else ReaderAction.dispatchDirect ⟨c.SetPingTime now, msg⟩) ∧
    (c.SetPingTime now).HeartbeatTime = now := by
  constructor
  · by_cases hw : workerPoolSize > 0 <;> simp [Connection.startReaderStep, hunp, hw]
  · rfl

/-- Witness for C7 in direct mode on a concrete decoded frame. -/
theorem reader_dispatch_mode_witness :
    Unpack 100 [1, 0, 0, 0, 7, 0, 0, 0, 9] = Except.ok ⟨7, 1, [9]⟩ ∧
    ((NewConnection 1 0 4).startReaderStep (Unpack 100) 0 5 false
        (some [1, 0, 0, 0, 7, 0, 0, 0, 9]) StopEffects.zero =
      ((NewConnection 1 0 4).SetPingTime 5, StopEffects.zero,
        if (0 : Nat) > 0 then
          ReaderAction.dispatchPool ⟨(NewConnection 1 0 4).SetPingTime 5, ⟨7, 1, [9]⟩⟩
        else
          ReaderAction.dispatchDirect ⟨(NewConnection 1 0 4).SetPingTime 5, ⟨7, 1, [9]⟩⟩) ∧
      ((NewConnection 1 0 4).SetPingTime 5).HeartbeatTime = 5) :=
  ⟨by decide,
    reader_dispatch_mode (Unpack 100) 0 5 (NewConnection 1 0 4)
      [1, 0, 0, 0, 7, 0, 0, 0, 9] ⟨7, 1, [9]⟩ StopEffects.zero (by decide)⟩

/-- Auxiliary: every single `Connection` operation preserves `isClosed = true`. -/
theorem applyOp_preserves_isClosed {α : Type} (pack : Nat → α → Except String (List Nat))
    (unpack : List Nat → Except String Message) (workerPoolSize now : Nat)
    (op : Op α) (c : Connection) (h : c.isClosed = true) :
    (applyOp pack unpack workerPoolSize now op c).isClosed = true := by
  cases op with
  | start => simpa [applyOp, Connection.Start] using h
  | readerStep ctxDone readResult =>
      cases ctxDone with
      | true => simpa [applyOp, Connection.startReaderStep] using h
      | false =>
          cases readResult with
          | none => simp [applyOp, Connection.startReaderStep, Connection.Stop, h]
          | some raw =>
              cases hu : unpack raw with
              | error e => simp [applyOp, Connection.startReaderStep, Connection.Stop, hu, h]
              | ok msg =>
                  by_cases hw : workerPoolSize > 0 <;>
                    simp [applyOp, Connection.startReaderStep, Connection.SetPingTime, hu, hw, h]
  | writerStep =>
      cases hm : c.msgChan <;> simp [applyOp, Connection.startWriterStep, hm, h]
  | sendMsg msgID data =>
      simp [applyOp, Connection.sendMsgState, Connection.SendMsg, h]
  | setPingTime => simpa [applyOp, Connection.SetPingTime] using h
  | stop => simp [applyOp, Connection.Stop, h]
  | isHeartbeatTimeout => simpa [applyOp] using h
  | getConnID => simpa [applyOp] using h
  | getConnection => simpa [applyOp] using h
  | contextGetter => simpa [applyOp] using h
  | remoteAddr => simpa [applyOp] using h

/-- C8: the `Closed` state is terminal.  Once `isClosed` is `true`, no trace of
`Connection` operations (`Start`, reader/writer iterations, `SendMsg`,
`SetPingTime`, `Stop`, `IsHeartbeatTimeout`, getters) ever resets it to
`false`; together with `Stop` being the only operation that sets it, the flag
transitions `false → true` at most once, at the first effective `Stop`. -/
theorem isClosed_terminal {α : Type} (pack : Nat → α → Except String (List Nat))
    (unpack : List Nat → Except String Message) (workerPoolSize : Nat)
    (ops : List (Nat × Op α)) (c : Connection) (h : c.isClosed = true) :
    (applyOps pack unpack workerPoolSize ops c).isClosed = true := by
  induction ops generalizing c with
  | nil => exact h
  | cons p rest ih =>
      obtain ⟨now, op⟩ := p
      exact ih _ (applyOp_preserves_isClosed pack unpack workerPoolSize now op c h)

/-- Witness for C8: a stopped connection stays closed across a concrete trace. -/
theorem isClosed_terminal_witness :
    ((NewConnection 1 0 4).Stop StopEffects.zero).1.isClosed = true ∧
    (applyOps (Pack 100) (Unpack 100) 0
        [(3, Op.setPingTime), (4, Op.sendMsg 7 [1]), (5, Op.stop), (6, Op.writerStep)]
        ((NewConnection 1 0 4).Stop StopEffects.zero).1).isClosed = true :=
  ⟨by decide,
    isClosed_terminal (Pack 100) (Unpack 100) 0
      [(3, Op.setPingTime), (4, Op.sendMsg 7 [1]), (5, Op.stop), (6, Op.writerStep)]
      ((NewConnection 1 0 4).Stop StopEffects.zero).1 (by decide)⟩

/-- C9: `HeartbeatTime` is monotonically non-decreasing.  It is set at
construction, and the only operations that write it (`SetPingTime`, called
directly or by the reader on each successfully decoded message) stamp the
current clock value `now`; since the clock never runs behind the last stamp
(`c.HeartbeatTime ≤ now`), no operation ever moves it to an earlier value. -/
theorem heartbeatTime_monotone {α : Type} (pack : Nat → α → Except String (List Nat))
    (unpack : List Nat → Except String Message) (workerPoolSize now : Nat)
    (op : Op α) (c : Connection) (h : c.HeartbeatTime ≤ now) :
    c.HeartbeatTime ≤ (applyOp pack unpack workerPoolSize now op c).HeartbeatTime := by
  cases op with
  | start => simp [applyOp, Connection.Start]
  | readerStep ctxDone readResult =>
      cases ctxDone with
      | true => simp [applyOp, Connection.startReaderStep]
      | false =>
          cases readResult with
          | none => simp [applyOp, Connection.startReaderStep, Connection.Stop]; split <;> simp
          | some raw =>
              cases hu : unpack raw with
              | error e =>
                  simp [applyOp, Connection.startReaderStep, Connection.Stop, hu]
                  split <;> simp
              | ok msg =>
                  by_cases hw : workerPoolSize > 0 <;>
                    simp [applyOp, Connection.startReaderStep, Connection.SetPingTime, hu, hw, h]
  | writerStep =>
      cases hm : c.msgChan <;> simp [applyOp, Connection.startWriterStep, hm]
  | sendMsg msgID data =>
      by_cases hc : c.isClosed <;>
        [skip;
         cases hp : pack msgID data] <;>
        simp_all [applyOp, Connection.sendMsgState, Connection.SendMsg]
  | setPingTime => simpa [applyOp, Connection.SetPingTime] using h
  | stop => simp [applyOp, Connection.Stop]; split <;> simp
  | isHeartbeatTimeout => simp [applyOp]
  | getConnID => simp [applyOp]
  | getConnection => simp [applyOp]
  | contextGetter => simp [applyOp]
  | remoteAddr => simp [applyOp]

/-- Witness for C9: `SetPingTime` at a later clock value does not decrease the
heartbeat stamp. -/
theorem heartbeatTime_monotone_witness :
    (NewConnection 1 2 4).HeartbeatTime ≤ 5 ∧
    (NewConnection 1 2 4).HeartbeatTime ≤
      (applyOp (Pack 100) (Unpack 100) 0 5 Op.setPingTime (NewConnection 1 2 4)).HeartbeatTime :=
  ⟨by decide,
    heartbeatTime_monotone (Pack 100) (Unpack 100) 0 5 Op.setPingTime
      (NewConnection 1 2 4) (by decide)⟩

/-- C10: `NewConnection` returns an open connection (`isClosed = false`) with
the given identifier, heartbeat equal to the construction time, and an empty
outbound channel of the configured capacity; consequently no `SendMsg` on a
freshly constructed connection can fail with the "connection closed" error. -/
theorem newConnection_initial_state {α : Type} (connID : Int) (now cap : Nat) :
    (NewConnection connID now cap).isClosed = false ∧
    (NewConnection connID now cap).ConnID = connID ∧
    (NewConnection connID now cap).GetConnID = connID ∧
    (NewConnection connID now cap).HeartbeatTime = now ∧
    (NewConnection connID now cap).msgChan = [] ∧
    (NewConnection connID now cap).msgChanCap = cap ∧
    ∀ (pack : Nat → α → Except String (List Nat)) (msgID : Nat) (data : α),
      (NewConnection connID now cap).SendMsg pack msgID data ≠
        Except.error "connection closed when send msg" := by
  refine ⟨rfl, rfl, rfl, rfl, rfl, rfl, ?_⟩
  intro pack msgID data
  cases hp : pack msgID data <;>
    simp [Connection.SendMsg, NewConnection, hp]

/-- C1: the polarity of `IsHeartbeatTimeout` is inverted in the source.  On a
connection whose heartbeat was stamped at time 0, the query at `now = 5`
seconds (elapsed well within the 30-second window) returns `true`, and the
query at `now = heartbeatWindow + 1` (elapsed just past the window) returns
`false` — the opposite of "true iff the elapsed time exceeds the window". -/
theorem isHeartbeatTimeout_polarity_bug :
    (NewConnection 1 0 16).IsHeartbeatTimeout 5000000000 = true ∧
    5000000000 - (NewConnection 1 0 16).HeartbeatTime ≤ heartbeatWindow ∧
    (NewConnection 1 0 16).IsHeartbeatTimeout (heartbeatWindow + 1) = false ∧
    heartbeatWindow < (heartbeatWindow + 1) - (NewConnection 1 0 16).HeartbeatTime := by
  refine ⟨by decide, by decide, by decide, by decide⟩

/-- C2: `Stop` invokes the on-disconnect hook (`CallOnConnStop`) before the
`isClosed` early-return check, so two sequential `Stop()` calls on a fresh open
connection run the hook twice — not exactly once — while the remaining
teardown effects (cancel, transport close, queue close, registry removal) do
run exactly once; the second call is therefore not a side-effect-free no-op. -/
theorem stop_hook_called_every_time :
    (((NewConnection 2 0 16).Stop StopEffects.zero).1.Stop
        ((NewConnection 2 0 16).Stop StopEffects.zero).2).2 =
      { hookCalls := 2, cancelCalls := 1, transportCloses := 1,
        chanCloses := 1, registryRemoves := 1 } ∧
    (((NewConnection 2 0 16).Stop StopEffects.zero).1.Stop
        ((NewConnection 2 0 16).Stop StopEffects.zero).2).1.isClosed = true := by
  refine ⟨by decide, by decide⟩
